import Mathlib

/-!
Verification development for the orb-trader repository.

Prices arriving as Python floats are modelled as rationals; timestamps
(venue-local, tz conversion abstracted away) are modelled as integers
(e.g. minutes since some epoch).  Fallible Python code (raising
exceptions) is modelled with `Except String`.

Sources embedded here:
  - src/src/utils/price_utils.py   (round_to_tick, es_tick_size)
  - src/src/strategy/orb.py        (OpeningRange, ORBPlan, ORBTracker,
                                    compute_opening_range, build_orb_plan)
  - src/src/strategy/skip_days.py  (should_skip_today and helpers)
  - src/src/trading/paper.py       (PaperBroker)
  - src/scripts/backtest.py        (_simulate_day exit management)
-/

/-- The epsilon guard used by round_to_tick (price_utils.py line 28). -/
def eps : ℚ := 1 / 1000000000000

/-- Core of the direction="down" branch of round_to_tick
(price_utils.py lines 30-32): floor((price + eps) / tick) * tick. -/
def round_down_core (price tick_size : ℚ) : ℚ :=
  ⌊(price + eps) / tick_size⌋ * tick_size

/-- Core of the direction="up" branch of round_to_tick
(price_utils.py lines 33-35): ceil((price - eps) / tick) * tick. -/
def round_up_core (price tick_size : ℚ) : ℚ :=
  ⌈(price - eps) / tick_size⌉ * tick_size

/-- Python's round() (banker's rounding, half to even), used by the
"nearest" branch of round_to_tick. -/
def py_round (q : ℚ) : ℤ :=
  let f := ⌊q⌋
  let r := q - f
  if r < 1 / 2 then f
  else if r > 1 / 2 then f + 1
  else if Even f then f else f + 1

/-- round_to_tick (price_utils.py lines 12-40).  Raising ValueError on
tick_size <= 0 is modelled as an error value. -/
def round_to_tick (price : ℚ) (tick_size : ℚ) (direction : String) : Except String ℚ :=
  if tick_size ≤ 0 then .error "tick_size must be > 0"
  else if direction = "down" then .ok (round_down_core price tick_size)
  else if direction = "up" then .ok (round_up_core price tick_size)
  else .ok (py_round (price / tick_size) * tick_size)

/-- es_tick_size (price_utils.py lines 43-48). -/
def es_tick_size (symbol : String) : ℚ :=
  if symbol = "/ES" ∨ symbol = "/MES" then 1 / 4 else 1 / 100

/-- OpeningRange (orb.py lines 23-36); start/end instants as integers. -/
structure OpeningRange where
  start : ℤ
  end_ : ℤ
  high : ℚ
  low : ℚ
deriving DecidableEq

/-- OpeningRange.size (orb.py line 32). -/
def OpeningRange.size (r : OpeningRange) : ℚ := r.high - r.low

/-- OpeningRange.mid (orb.py line 36). -/
def OpeningRange.mid (r : OpeningRange) : ℚ := (r.high + r.low) / 2

/-- ORBPlan (orb.py lines 39-50). -/
structure ORBPlan where
  symbol : String
  opening_range : OpeningRange
  long_entry : ℚ
  long_stop : ℚ
  long_target : ℚ
  short_entry : ℚ
  short_stop : ℚ
  short_target : ℚ
deriving DecidableEq

/-- One OHLCV minute candle (a row of the pandas DataFrame); ts is the
candle's timestamp already converted to venue-local time. -/
structure Candle where
  ts : ℤ
  open_ : ℚ
  high : ℚ
  low : ℚ
  close : ℚ
  volume : ℚ
deriving DecidableEq

/-- The [start, end) window membership test used when slicing candles
(orb.py line 306). -/
def in_window (start end_ : ℤ) (c : Candle) : Bool :=
  decide (start ≤ c.ts ∧ c.ts < end_)

/-- compute_opening_range (orb.py lines 263-313).  The two ValueError
branches are modelled as distinct error values; the timezone
normalisation is abstracted into the integer timestamps. -/
def compute_opening_range (candles : List Candle) (start end_ : ℤ) :
    Except String OpeningRange :=
  if candles.isEmpty then .error "No candles provided"
  else
    match candles.filter (in_window start end_) with
    | [] => .error "No candles in opening range window"
    | c :: cs =>
        .ok { start := start, end_ := end_,
              high := (cs.map Candle.high).foldl max c.high,
              low := (cs.map Candle.low).foldl min c.low }

/-- build_orb_plan (orb.py lines 316-367).  round_to_tick is called with
tick = es_tick_size symbol > 0, so its error branch is unreachable; the
ok payloads round_down_core / round_up_core are used directly (see lemma
round_to_tick_down_ok below). -/
def build_orb_plan (symbol : String) (opening_range : OpeningRange)
    (target_points : ℚ) : ORBPlan :=
  let rng := opening_range.size
  let use_mid_stop := rng > target_points
  let long_entry := opening_range.high
  let short_entry := opening_range.low
  let long_stop_raw := if use_mid_stop then opening_range.mid else opening_range.low
  let short_stop_raw := if use_mid_stop then opening_range.mid else opening_range.high
  let tick := es_tick_size symbol
  let long_stop :=
    if symbol = "/ES" ∨ symbol = "/MES" then round_down_core long_stop_raw tick
    else long_stop_raw
  let short_stop :=
    if symbol = "/ES" ∨ symbol = "/MES" then round_up_core short_stop_raw tick
    else short_stop_raw
  { symbol := symbol
    opening_range := opening_range
    long_entry := long_entry
    long_stop := long_stop
    long_target := long_entry + target_points
    short_entry := short_entry
    short_stop := short_stop
    short_target := short_entry - target_points }

/-- A stop/target price being an exact multiple of the tick size. -/
def is_tick_multiple (x t : ℚ) : Prop := ∃ n : ℤ, x = n * t

/-- The skip_days section of the settings mapping
(config keys read by skip_days.py lines 110-133). -/
structure SkipDaysCfg where
  fomc_dates_2026 : Option (List String)
  fomc_dates : Option (List String)
  gap_threshold_pct : Option ℚ
  max_range_points : Option ℚ
deriving DecidableEq

/-- The empty dict used as default for settings.get("skip_days", {}). -/
def default_skip_cfg : SkipDaysCfg :=
  { fomc_dates_2026 := none, fomc_dates := none,
    gap_threshold_pct := none, max_range_points := none }

/-- The settings mapping as consumed by should_skip_today: the skip_days
sub-mapping plus the backwards-compatible top-level gap_threshold_pct. -/
structure Settings where
  skip_days : Option SkipDaysCfg
  gap_threshold_pct : Option ℚ
deriving DecidableEq

/-- Python truthiness fallback for
cfg.get("fomc_dates_2026") or cfg.get("fomc_dates") (skip_days.py line
112): None and the empty list are falsy. -/
def py_or_dates (a b : Option (List String)) : Option (List String) :=
  match a with
  | some l => if l.isEmpty then b else some l
  | none => b

/-- is_fomc_day (skip_days.py lines 27-34); the session date is modelled
directly by its ISO string, which is what the comparison uses. -/
def is_fomc_day (day : String) (fomc_dates : Option (List String)) : Bool :=
  match fomc_dates with
  | none => false
  | some l => if l.isEmpty then false else l.contains day

/-- is_range_overlap_day (skip_days.py lines 37-55). -/
def is_range_overlap_day (orb_high orb_low prev_close_high prev_close_low : ℚ) :
    Bool :=
  if orb_high ≤ 0 ∨ orb_low ≤ 0 ∨ prev_close_high ≤ 0 ∨ prev_close_low ≤ 0 then
    false
  else
    let no_overlap := orb_high < prev_close_low ∨ orb_low > prev_close_high
    !(decide no_overlap)

/-- is_wide_range_day (skip_days.py lines 58-66); the None guard is
unreachable from should_skip_today, which always passes a number. -/
def is_wide_range_day (range_size max_range_points : ℚ) : Bool :=
  if range_size ≤ 0 then false else decide (range_size > max_range_points)

/-- is_gap_fill_day (skip_days.py lines 69-83); open/prev-close may be
missing (None). -/
def is_gap_fill_day (open_price prev_close : Option ℚ) (threshold_pct : ℚ) :
    Bool :=
  match prev_close with
  | none => false
  | some pc =>
      if pc ≤ 0 then false
      else
        match open_price with
        | none => false
        | some op =>
            if op ≤ 0 then false
            else decide (|op - pc| / pc * 100 > threshold_pct)

/-- The two-place threshold lookup of should_skip_today
(skip_days.py lines 118-120): settings.skip_days.gap_threshold_pct first,
then top-level settings.gap_threshold_pct. -/
def threshold_lookup (settings : Settings) : Option ℚ :=
  match (settings.skip_days.getD default_skip_cfg).gap_threshold_pct with
  | some t => some t
  | none => settings.gap_threshold_pct

/-- should_skip_today (skip_days.py lines 86-137). -/
def should_skip_today (day : String) (open_price prev_close : Option ℚ)
    (settings : Settings)
    (orb_high orb_low prev_close_high prev_close_low : Option ℚ) :
    Bool × String :=
  let cfg := settings.skip_days.getD default_skip_cfg
  let fomc_dates := py_or_dates cfg.fomc_dates_2026 cfg.fomc_dates
  if is_fomc_day day fomc_dates then (true, "FOMC_DAY")
  else if (match threshold_lookup settings with
           | some t => is_gap_fill_day open_price prev_close t
           | none => false) then (true, "GAP_FILL_DAY")
  else if (match orb_high, orb_low, prev_close_high, prev_close_low with
           | some oh, some ol, some pch, some pcl =>
               is_range_overlap_day oh ol pch pcl
           | _, _, _, _ => false) then (true, "RANGE_OVERLAP_DAY")
  else if (match orb_high, orb_low with
           | some oh, some ol =>
               is_wide_range_day (oh - ol) (cfg.max_range_points.getD 38)
           | _, _ => false) then (true, "WIDE_RANGE_DAY")
  else (false, "")

/-- ORBState (orb.py lines 53-58). -/
inductive ORBState where
  | waiting
  | building
  | complete
deriving DecidableEq

/-- A quote returned by the market-data collaborator: last price plus the
optional embedded quote timestamp (orb.py lines 150-173).  A collaborator
failure (raised exception, including the "No FUTURE quote" RuntimeError)
is an `Except.error` at the call site. -/
structure Quote where
  price : ℚ
  ts : Option ℤ
deriving DecidableEq

/-- The mutable per-session fields of ORBTracker (orb.py lines 90-99),
plus the max_stale_s configuration it consults. -/
structure ORBTracker where
  state : ORBState
  range_high : Option ℚ
  range_low : Option ℚ
  range_size : Option ℚ
  range_midpoint : Option ℚ
  opening_range : Option OpeningRange
  last_quote_ts : Option ℤ
  seeded_from_history : Bool
  max_stale_s : ℤ
deriving DecidableEq

/-- ORBTracker._compute_derived (orb.py lines 111-115). -/
def ORBTracker.compute_derived (t : ORBTracker) : ORBTracker :=
  match t.range_high, t.range_low with
  | some h, some l =>
      { t with range_size := some (h - l), range_midpoint := some ((h + l) / 2) }
  | _, _ => t

/-- The high/low extension step of _update_from_quote
(orb.py lines 185-188). -/
def ORBTracker.update_hl (t : ORBTracker) (price : ℚ) : ORBTracker :=
  let rh := match t.range_high with
    | none => some price
    | some h => if price > h then some price else some h
  let rl := match t.range_low with
    | none => some price
    | some l => if price < l then some price else some l
  { t with range_high := rh, range_low := rl }

/-- ORBTracker._update_from_quote (orb.py lines 159-191).  The
surrounding try/except means a collaborator failure leaves the tracker
unchanged. -/
def ORBTracker.update_from_quote (t : ORBTracker) (now : ℤ)
    (quote : Except String Quote) : ORBTracker :=
  match quote with
  | .error _ => t
  | .ok q =>
      if q.price ≤ 0 then t
      else
        match q.ts with
        | some qts =>
            if now - qts > t.max_stale_s then t
            else ({ t with last_quote_ts := some qts }.update_hl q.price).compute_derived
        | none => (t.update_hl q.price).compute_derived

/-- ORBTracker._seed_from_history (orb.py lines 193-224).  The
surrounding try/except means a collaborator failure leaves the tracker
unchanged; so do an empty history and an empty window slice. -/
def ORBTracker.seed_from_history (t : ORBTracker)
    (history : Except String (List Candle)) (start window_end : ℤ) : ORBTracker :=
  match history with
  | .error _ => t
  | .ok candles =>
      if candles.isEmpty then t
      else
        match candles.filter (in_window start window_end) with
        | [] => t
        | c :: cs =>
            ({ t with
                range_high := some ((cs.map Candle.high).foldl max c.high),
                range_low := some ((cs.map Candle.low).foldl min c.low) }).compute_derived

/-- ORBTracker._finalize_from_history (orb.py lines 226-253).  This
method has NO try/except: both a history-fetch failure and a
compute_opening_range failure propagate to the caller. -/
def ORBTracker.finalize_from_history (t : ORBTracker)
    (history : Except String (List Candle)) (start end_ : ℤ) :
    Except String ORBTracker :=
  match history with
  | .error e => .error e
  | .ok candles =>
      match compute_opening_range candles start end_ with
      | .error e => .error e
      | .ok org =>
          .ok ({ t with
                  opening_range := some org,
                  range_high := some org.high,
                  range_low := some org.low }).compute_derived

/-- ORBTracker.update (orb.py lines 120-148).  now/start/end_ are the
current instant and the session window instants (session-time derivation
from the wall clock is abstracted); the collaborator results for
get_quotes and get_price_history are passed explicitly.  An uncaught
exception is an `Except.error` result. -/
def ORBTracker.update (t : ORBTracker) (now start end_ : ℤ)
    (quote : Except String Quote) (history : Except String (List Candle)) :
    Except String ORBTracker :=
  if now < start then .ok { t with state := .waiting }
  else if now < end_ then
    let t1 := { t with state := ORBState.building }
    let t2 :=
      if t1.seeded_from_history then t1
      else { t1.seed_from_history history start (min now end_) with
              seeded_from_history := true }
    .ok (t2.update_from_quote now quote)
  else
    if t.state ≠ ORBState.complete then
      match t.finalize_from_history history start end_ with
      | .error e => .error e
      | .ok t3 => .ok { t3 with state := ORBState.complete }
    else .ok t

/-- Side (paper.py lines 33-35). -/
inductive Side where
  | LONG
  | SHORT
deriving DecidableEq

/-- Position (paper.py lines 38-43). -/
structure Position where
  side : Side
  qty : ℤ
  entry : ℚ
  entry_time : ℤ
deriving DecidableEq

/-- Bracket (paper.py lines 46-49); named TradeBracket here to avoid the
Mathlib Bracket class. -/
structure TradeBracket where
  stop : ℚ
  target : ℚ
deriving DecidableEq

/-- OCOEntry (paper.py lines 52-70). -/
structure OCOEntry where
  buy_stop : ℚ
  sell_stop : ℚ
  range_high : ℚ
  range_low : ℚ
  range_mid : ℚ
  range_size : ℚ
  target_points : ℚ
  qty : ℤ
  placed_time : ℤ
deriving DecidableEq

/-- The mutable state of PaperBroker (paper.py lines 86-96); the
notifier, symbol and point_value fields only feed logging/notification
text and are omitted. -/
structure Broker where
  position : Option Position
  bracket : Option TradeBracket
  oco : Option OCOEntry
  trade_taken_today : Bool
  breakeven_stop_active : Bool
  last_price : Option ℚ
  last_unrealized_pnl : Option ℚ
deriving DecidableEq

/-- PaperBroker.place_orb_oco (paper.py lines 98-138); the one-trade
guard returns without touching any state.  /ES entry rounding uses the
up/down cores (tick 0.25 > 0, so round_to_tick cannot error here). -/
def Broker.place_orb_oco (b : Broker) (range_high range_low buffer target_points : ℚ)
    (qty : ℤ) (now : ℤ) : Broker :=
  if b.trade_taken_today then b
  else
    let entry : OCOEntry :=
      { buy_stop := round_up_core (range_high + buffer) (1 / 4)
        sell_stop := round_down_core (range_low - buffer) (1 / 4)
        range_high := range_high
        range_low := range_low
        range_mid := (range_high + range_low) / 2
        range_size := range_high - range_low
        target_points := target_points
        qty := qty
        placed_time := now }
    { b with oco := some entry }

/-- PaperBroker.cancel_entry (paper.py lines 140-143). -/
def Broker.cancel_entry (b : Broker) : Broker := { b with oco := none }

/-- PaperBroker.reset_for_new_day (paper.py lines 145-157). -/
def Broker.reset_for_new_day (b : Broker) : Broker :=
  { b with position := none, bracket := none, oco := none,
            trade_taken_today := false, breakeven_stop_active := false,
            last_price := none, last_unrealized_pnl := none }

/-- PaperBroker._compute_stop_target (paper.py lines 251-268). -/
def compute_stop_target (side : Side) (entry : ℚ) (oco : OCOEntry) : ℚ × ℚ :=
  let target :=
    if side = Side.LONG then entry + oco.target_points else entry - oco.target_points
  let stop_raw :=
    if oco.range_size > oco.target_points then oco.range_mid
    else if side = Side.LONG then oco.range_low else oco.range_high
  let stop :=
    if side = Side.LONG then round_down_core stop_raw (1 / 4)
    else round_up_core stop_raw (1 / 4)
  (stop, target)

/-- PaperBroker._open (paper.py lines 270-299); called from on_price
while self.oco is still set, so the bracket is derived from it. -/
def Broker.open_ (b : Broker) (side : Side) (qty : ℤ) (entry : ℚ) (now : ℤ) :
    Broker :=
  let b1 := { b with trade_taken_today := true,
                      position := some { side := side, qty := qty,
                                         entry := entry, entry_time := now } }
  match b.oco with
  | none => { b1 with bracket := none }
  | some o =>
      let st := compute_stop_target side entry o
      { b1 with bracket := some { stop := st.1, target := st.2 },
                 last_unrealized_pnl := none, breakeven_stop_active := false }

/-- PaperBroker._close (paper.py lines 301-343): clears the position
state and yields the recorded close (exit price, normalised exit
reason).  The caller guarantees the open position p. -/
def Broker.close_ (b : Broker) (p : Position) (price : ℚ) (reason : String) :
    Broker × Option (ℚ × String) :=
  let is_breakeven : Bool :=
    b.breakeven_stop_active &&
      (match b.bracket with
       | some br => decide (|br.stop - p.entry| < 1 / 1000000000)
       | none => false)
  let exit_reason := if reason = "stop" && is_breakeven then "breakeven_stop" else reason
  ({ b with position := none, bracket := none,
             breakeven_stop_active := false, last_unrealized_pnl := none },
   some (price, exit_reason))

/-- PaperBroker._log_unrealized_pnl (paper.py lines 345-351): only the
throttle state mutation is modelled (min_change = 1.0). -/
def Broker.log_unrealized_pnl (b : Broker) (last_price : ℚ) : Broker :=
  match b.position with
  | none => b
  | some p =>
      let pnl := (last_price - p.entry) * (if p.side = Side.LONG then 1 else -1)
      match b.last_unrealized_pnl with
      | none => { b with last_unrealized_pnl := some pnl }
      | some prev =>
          if |pnl - prev| ≥ 1 then { b with last_unrealized_pnl := some pnl } else b

/-- The entry-fill phase of PaperBroker.on_price (paper.py lines
163-197): crossing test when a previous price exists, level test on the
very first tick; on a fill the opposite leg is canceled (oco := none).
Yields the broker plus the fill event (side, entry price). -/
def Broker.entry_step (b : Broker) (price : ℚ) (now : ℤ) :
    Broker × Option (Side × ℚ) :=
  match b.position, b.oco, b.last_price with
  | none, some o, some lp =>
      if lp < o.buy_stop ∧ o.buy_stop ≤ price then
        ({ b.open_ Side.LONG o.qty o.buy_stop now with oco := none },
         some (Side.LONG, o.buy_stop))
      else if lp > o.sell_stop ∧ o.sell_stop ≥ price then
        ({ b.open_ Side.SHORT o.qty o.sell_stop now with oco := none },
         some (Side.SHORT, o.sell_stop))
      else (b, none)
  | none, some o, none =>
      if o.buy_stop ≤ price then
        ({ b.open_ Side.LONG o.qty o.buy_stop now with oco := none },
         some (Side.LONG, o.buy_stop))
      else if price ≤ o.sell_stop then
        ({ b.open_ Side.SHORT o.qty o.sell_stop now with oco := none },
         some (Side.SHORT, o.sell_stop))
      else (b, none)
  | _, _, _ => (b, none)

/-- The exit-management phase of PaperBroker.on_price (paper.py lines
199-213): stop checked before target on each side, then the unrealized
P&L throttle.  Yields the broker plus the recorded close event. -/
def Broker.exit_step (b : Broker) (price : ℚ) : Broker × Option (ℚ × String) :=
  match b.position, b.bracket with
  | some p, some br =>
      let r :=
        if p.side = Side.LONG then
          if price ≤ br.stop then b.close_ p price "stop"
          else if price ≥ br.target then b.close_ p price "target"
          else (b, none)
        else
          if price ≥ br.stop then b.close_ p price "stop"
          else if price ≤ br.target then b.close_ p price "target"
          else (b, none)
      (r.1.log_unrealized_pnl price, r.2)
  | _, _ => (b, none)

/-- The observable outcome of one on_price tick. -/
structure TickResult where
  broker : Broker
  fill : Option (Side × ℚ)
  close : Option (ℚ × String)
deriving DecidableEq

/-- PaperBroker.on_price (paper.py lines 159-215): entry phase, exit
phase, then the previous-price update. -/
def Broker.on_price (b : Broker) (price : ℚ) (now : ℤ) : TickResult :=
  let s1 := b.entry_step price now
  let s2 := s1.1.exit_step price
  { broker := { s2.1 with last_price := some price }, fill := s1.2, close := s2.2 }

/-- PaperBroker.move_stop_to_breakeven_if_in_profit
(paper.py lines 217-241). -/
def Broker.move_stop_to_breakeven_if_in_profit (b : Broker) (last_price : ℚ) :
    Broker :=
  match b.position, b.bracket with
  | some p, some br =>
      if b.breakeven_stop_active then b
      else if p.side = Side.LONG ∧ last_price > p.entry then
        if br.stop < p.entry then
          { b with bracket := some { br with stop := round_down_core p.entry (1 / 4) },
                    breakeven_stop_active := true }
        else b
      else if p.side = Side.SHORT ∧ last_price < p.entry then
        if br.stop > p.entry then
          { b with bracket := some { br with stop := round_up_core p.entry (1 / 4) },
                    breakeven_stop_active := true }
        else b
      else b
  | _, _ => b

/-- PaperBroker.exit_market (paper.py lines 243-249). -/
def Broker.exit_market (b : Broker) (last_price : ℚ) (reason : String) :
    Broker × Option (ℚ × String) :=
  let r := match b.position with
    | some p => b.close_ p last_price reason
    | none => (b, none)
  ({ r.1 with oco := none }, r.2)

/-- One public PaperBroker operation of a live session (everything
except the calendar-rollover reset_for_new_day). -/
inductive BrokerAction where
  | tick (price : ℚ) (now : ℤ)
  | place (range_high range_low buffer target_points : ℚ) (qty : ℤ) (now : ℤ)
  | breakeven (last_price : ℚ)
  | exitMarket (last_price : ℚ) (reason : String)
  | cancelEntry

/-- State effect of one Action on the broker. -/
def runAction (b : Broker) : BrokerAction → Broker
  | .tick price now => (b.on_price price now).broker
  | .place rh rl buf tp q now => b.place_orb_oco rh rl buf tp q now
  | .breakeven lp => b.move_stop_to_breakeven_if_in_profit lp
  | .exitMarket lp reason => (b.exit_market lp reason).1
  | .cancelEntry => b.cancel_entry

/-- The backtest per-candle exit management for an open position
(backtest.py lines 276-319): stop/target touches from the candle
high/low, both-touched resolved as a stop-out at the stop price. -/
def backtest_manage_exit (side : Side) (stop_px target_px : ℚ) (h l : ℚ) :
    Option (ℚ × String) :=
  match side with
  | Side.LONG =>
      let stop_hit := decide (l ≤ stop_px)
      let target_hit := decide (h ≥ target_px)
      if stop_hit && target_hit then some (stop_px, "STOP_AND_TARGET_SAME_CANDLE")
      else if stop_hit then some (stop_px, "STOP")
      else if target_hit then some (target_px, "TARGET")
      else none
  | Side.SHORT =>
      let stop_hit := decide (h ≥ stop_px)
      let target_hit := decide (l ≤ target_px)
      if stop_hit && target_hit then some (stop_px, "STOP_AND_TARGET_SAME_CANDLE")
      else if stop_hit then some (stop_px, "STOP")
      else if target_hit then some (target_px, "TARGET")
      else none

/-- Skip condition 1 as listed by the spec: the date is in the configured
FOMC blackout list (skip_days.py lines 112-113). -/
def fomc_condition (day : String) (s : Settings) : Bool :=
  let cfg := s.skip_days.getD default_skip_cfg
  is_fomc_day day (py_or_dates cfg.fomc_dates_2026 cfg.fomc_dates)

/-- Skip condition 2: a configured threshold exists and the overnight gap
qualifies (skip_days.py lines 118-122). -/
def gap_condition (open_price prev_close : Option ℚ) (s : Settings) : Bool :=
  match threshold_lookup s with
  | some t => is_gap_fill_day open_price prev_close t
  | none => false

/-- Skip condition 3: all four range inputs are present and the ranges
overlap (skip_days.py lines 126-127). -/
def overlap_condition (orb_high orb_low prev_close_high prev_close_low : Option ℚ) :
    Bool :=
  match orb_high, orb_low, prev_close_high, prev_close_low with
  | some oh, some ol, some pch, some pcl => is_range_overlap_day oh ol pch pcl
  | _, _, _, _ => false

/-- Skip condition 4: both range boundaries are present and the range is
too wide (skip_days.py lines 131-134). -/
def wide_condition (orb_high orb_low : Option ℚ) (s : Settings) : Bool :=
  match orb_high, orb_low with
  | some oh, some ol =>
      is_wide_range_day (oh - ol)
        ((s.skip_days.getD default_skip_cfg).max_range_points.getD 38)
  | _, _ => false

/-- A tracker that has been building the range and reached the range-end
instant; used to exercise the transition into RANGE_COMPLETE. -/
def c2_tracker : ORBTracker :=
  { state := ORBState.building
    range_high := some 6860
    range_low := some 6850
    range_size := some 10
    range_midpoint := some 6855
    opening_range := none
    last_quote_ts := none
    seeded_from_history := true
    max_stale_s := 30 }

/-- A broker holding a long position whose stop has been moved to
breakeven (stop = entry = target reachable with target_points = 0). -/
def c3_cex_broker : Broker :=
  { position := some { side := Side.LONG, qty := 1, entry := 100, entry_time := 0 }
    bracket := some { stop := 100, target := 100 }
    oco := none
    trade_taken_today := true
    breakeven_stop_active := true
    last_price := some 100
    last_unrealized_pnl := none }

/-- A broker holding a long position with a degenerate bracket whose stop
and target are both satisfied by one tick. -/
def c3_wit_broker : Broker :=
  { position := some { side := Side.LONG, qty := 1, entry := 6860, entry_time := 0 }
    bracket := some { stop := 6850, target := 6840 }
    oco := none
    trade_taken_today := true
    breakeven_stop_active := false
    last_price := some 6850
    last_unrealized_pnl := none }

/-- A pending ORB OCO entry for a 6850-6860 range with 20-point target. -/
def c5_oco : OCOEntry :=
  { buy_stop := 6860, sell_stop := 6850
    range_high := 6860, range_low := 6850
    range_mid := 6855, range_size := 10
    target_points := 20, qty := 1, placed_time := 0 }

/-- A broker with the pending OCO entry and a previous observed price. -/
def c5_broker : Broker :=
  { position := none, bracket := none, oco := some c5_oco
    trade_taken_today := false, breakeven_stop_active := false
    last_price := some 6859, last_unrealized_pnl := none }

/-- A broker with the pending OCO entry and no previous observed price. -/
def c6_broker : Broker :=
  { position := none, bracket := none, oco := some c5_oco
    trade_taken_today := false, breakeven_stop_active := false
    last_price := none, last_unrealized_pnl := none }

/-- A broker holding a long position before any breakeven move. -/
def c9_broker : Broker :=
  { position := some { side := Side.LONG, qty := 1, entry := 6860, entry_time := 0 }
    bracket := some { stop := 6850, target := 6880 }
    oco := none
    trade_taken_today := true
    breakeven_stop_active := false
    last_price := some 6861
    last_unrealized_pnl := none }

/-- Settings whose blackout list holds 2026-01-28 and whose gap threshold
is 1 percent. -/
def c4_settings : Settings :=
  { skip_days := some
      { fomc_dates_2026 := some ["2026-01-28"]
        fomc_dates := none
        gap_threshold_pct := some 1
        max_range_points := none }
    gap_threshold_pct := none }

/-- Settings supplying no gap threshold at either location. -/
def c10_settings : Settings :=
  { skip_days := some default_skip_cfg, gap_threshold_pct := none }

/-- Two candles, one inside the [0, 15) window and one outside it. -/
def c8_candles : List Candle :=
  [ { ts := 5, open_ := 6855, high := 6861, low := 6849, close := 6853, volume := 100 }
  , { ts := 20, open_ := 6850, high := 6870, low := 6840, close := 6860, volume := 50 } ]

/-- The opening range computed from c8_candles over [0, 15). -/
def c8_range : OpeningRange := { start := 0, end_ := 15, high := 6861, low := 6849 }

/-- The fold seed is a lower bound of the running maximum. -/
theorem foldl_max_init_le (a : ℚ) (l : List ℚ) : a ≤ l.foldl max a := by
  induction l generalizing a with
  | nil => exact le_refl a
  | cons x xs ih =>
      simp only [List.foldl_cons]
      exact le_trans (le_max_left a x) (ih (max a x))

/-- Every list element is a lower bound of the running maximum. -/
theorem foldl_max_le_of_mem {x : ℚ} {l : List ℚ} (a : ℚ) (hx : x ∈ l) :
    x ≤ l.foldl max a := by
  induction l generalizing a with
  | nil => cases hx
  | cons y ys ih =>
      simp only [List.foldl_cons]
      rcases List.mem_cons.mp hx with h | h
      · subst h
        exact le_trans (le_max_right a x) (foldl_max_init_le _ _)
      · exact ih _ h

/-- The running maximum is the seed or one of the list elements. -/
theorem foldl_max_mem (a : ℚ) (l : List ℚ) :
    l.foldl max a = a ∨ l.foldl max a ∈ l := by
  induction l generalizing a with
  | nil => exact Or.inl rfl
  | cons y ys ih =>
      simp only [List.foldl_cons]
      rcases ih (max a y) with h | h
      · rcases max_choice a y with hm | hm
        · exact Or.inl (by rw [h, hm])
        · exact Or.inr (by rw [h, hm]; exact List.mem_cons_self y ys)
      · exact Or.inr (List.mem_cons_of_mem y h)

/-- The fold seed is an upper bound of the running minimum. -/
theorem le_foldl_min_init (a : ℚ) (l : List ℚ) : l.foldl min a ≤ a := by
  induction l generalizing a with
  | nil => exact le_refl a
  | cons x xs ih =>
      simp only [List.foldl_cons]
      exact le_trans (ih (min a x)) (min_le_left a x)

/-- Every list element is an upper bound of the running minimum. -/
theorem le_foldl_min_of_mem {x : ℚ} {l : List ℚ} (a : ℚ) (hx : x ∈ l) :
    l.foldl min a ≤ x := by
  induction l generalizing a with
  | nil => cases hx
  | cons y ys ih =>
      simp only [List.foldl_cons]
      rcases List.mem_cons.mp hx with h | h
      · subst h
        exact le_trans (le_foldl_min_init _ _) (min_le_right a x)
      · exact ih _ h

/-- The running minimum is the seed or one of the list elements. -/
theorem foldl_min_mem (a : ℚ) (l : List ℚ) :
    l.foldl min a = a ∨ l.foldl min a ∈ l := by
  induction l generalizing a with
  | nil => exact Or.inl rfl
  | cons y ys ih =>
      simp only [List.foldl_cons]
      rcases ih (min a y) with h | h
      · rcases min_choice a y with hm | hm
        · exact Or.inl (by rw [h, hm])
        · exact Or.inr (by rw [h, hm]; exact List.mem_cons_self y ys)
      · exact Or.inr (List.mem_cons_of_mem y h)

/-- With a positive tick size, round_to_tick "down" returns the floor
core value. -/
theorem round_to_tick_down_ok (x t : ℚ) (h : 0 < t) :
    round_to_tick x t "down" = Except.ok (round_down_core x t) := by
  simp [round_to_tick, not_le.mpr h]

/-- With a positive tick size, round_to_tick "up" returns the ceiling
core value. -/
theorem round_to_tick_up_ok (x t : ℚ) (h : 0 < t) :
    round_to_tick x t "up" = Except.ok (round_up_core x t) := by
  simp [round_to_tick, not_le.mpr h]

/-- The down rounding core lands on an exact tick multiple. -/
theorem round_down_core_multiple (x t : ℚ) : is_tick_multiple (round_down_core x t) t :=
  ⟨⌊(x + eps) / t⌋, rfl⟩

/-- The up rounding core lands on an exact tick multiple. -/
theorem round_up_core_multiple (x t : ℚ) : is_tick_multiple (round_up_core x t) t :=
  ⟨⌈(x - eps) / t⌉, rfl⟩

/-- Evaluation helper: the floor of a rational sandwiched in [n, n+1). -/
theorem floor_eval (q : ℚ) (n : ℤ) (h1 : (n : ℚ) ≤ q) (h2 : q < (n : ℚ) + 1) :
    ⌊q⌋ = n :=
  Int.floor_eq_iff.mpr ⟨h1, h2⟩

/-- Evaluation helper: the ceiling of a rational sandwiched in (n-1, n]. -/
theorem ceil_eval (q : ℚ) (n : ℤ) (h1 : (n : ℚ) - 1 < q) (h2 : q ≤ (n : ℚ)) :
    ⌈q⌉ = n :=
  Int.ceil_eq_iff.mpr ⟨h1, h2⟩

/-- Evaluation helper for the down rounding core. -/
theorem round_down_core_eval (x t : ℚ) (n : ℤ) (h1 : (n : ℚ) ≤ (x + eps) / t)
    (h2 : (x + eps) / t < (n : ℚ) + 1) : round_down_core x t = n * t := by
  rw [round_down_core, floor_eval _ n h1 h2]

/-- Evaluation helper for the up rounding core. -/
theorem round_up_core_eval (x t : ℚ) (n : ℤ) (h1 : (n : ℚ) - 1 < (x - eps) / t)
    (h2 : (x - eps) / t ≤ (n : ℚ)) : round_up_core x t = n * t := by
  rw [round_up_core, ceil_eval _ n h1 h2]

/-- C7 (corrected).  For a positive tick size both directional roundings
succeed and land on exact tick multiples; round-down stays at or below
the price whenever the price is not within eps strictly below a tick
multiple, and round-up stays at or above it whenever the price is not
within eps strictly above a tick multiple (the epsilon guard makes the
unconditional inequalities of the original claim false, see the
counterexample); when eps is below the tick size, a price exactly on a
tick is returned unchanged in both directions; and the spec's example
evaluations hold. -/
theorem claim_c7_round_to_tick (x t : ℚ) (h : 0 < t) :
    round_to_tick x t "down" = Except.ok (round_down_core x t) ∧
    round_to_tick x t "up" = Except.ok (round_up_core x t) ∧
    is_tick_multiple (round_down_core x t) t ∧
    is_tick_multiple (round_up_core x t) t ∧
    ((¬ ∃ k : ℤ, x < k * t ∧ (k : ℚ) * t ≤ x + eps) → round_down_core x t ≤ x) ∧
    ((¬ ∃ k : ℤ, x - eps ≤ k * t ∧ (k : ℚ) * t < x) → x ≤ round_up_core x t) ∧
    (eps < t → ∀ k : ℤ, x = k * t → round_down_core x t = x ∧ round_up_core x t = x) ∧
    round_to_tick (342731 / 50) (1 / 4) "down" = Except.ok (13709 / 2) ∧
    round_to_tick (342731 / 50) (1 / 4) "up" = Except.ok (27419 / 4) ∧
    round_to_tick (27419 / 4) (1 / 4) "down" = Except.ok (27419 / 4) := by
  have ht : t ≠ 0 := ne_of_gt h
  have hq : (0 : ℚ) < 1 / 4 := by norm_num
  refine ⟨round_to_tick_down_ok x t h, round_to_tick_up_ok x t h,
    round_down_core_multiple x t, round_up_core_multiple x t, ?_, ?_, ?_,
    ?_, ?_, ?_⟩
  · intro hno
    by_contra hgt
    push_neg at hgt
    refine hno ⟨⌊(x + eps) / t⌋, hgt, ?_⟩
    calc ((⌊(x + eps) / t⌋ : ℚ)) * t ≤ ((x + eps) / t) * t := by
          exact mul_le_mul_of_nonneg_right (Int.floor_le _) (le_of_lt h)
      _ = x + eps := div_mul_cancel₀ _ ht
  · intro hno
    by_contra hlt
    push_neg at hlt
    refine hno ⟨⌈(x - eps) / t⌉, ?_, hlt⟩
    calc x - eps = ((x - eps) / t) * t := (div_mul_cancel₀ _ ht).symm
      _ ≤ ((⌈(x - eps) / t⌉ : ℚ)) * t := by
          exact mul_le_mul_of_nonneg_right (Int.le_ceil _) (le_of_lt h)
  · intro het k hk
    have heps_nonneg : (0 : ℚ) ≤ eps := by norm_num [eps]
    have hdiv_lt : eps / t < 1 := (div_lt_one h).mpr het
    have hdiv_nonneg : (0 : ℚ) ≤ eps / t := div_nonneg heps_nonneg (le_of_lt h)
    constructor
    · have h1 : (x + eps) / t = (k : ℚ) + eps / t := by
        rw [hk, add_div, mul_div_cancel_right₀ _ ht]
      have h2 : ⌊(x + eps) / t⌋ = k := by
        rw [h1, Int.floor_int_add]
        have : ⌊eps / t⌋ = 0 := Int.floor_eq_zero_iff.mpr ⟨hdiv_nonneg, hdiv_lt⟩
        omega
      rw [round_down_core, h2, hk]
    · have h1 : (x - eps) / t = -(eps / t) + (k : ℚ) := by
        rw [hk, sub_div, mul_div_cancel_right₀ _ ht]
        ring
      have h2 : ⌈(x - eps) / t⌉ = k := by
        rw [h1, Int.ceil_add_int]
        have : ⌈-(eps / t)⌉ = 0 := by
          rw [Int.ceil_eq_zero_iff]
          constructor
          · simpa using hdiv_lt
          · simpa using hdiv_nonneg
        omega
      rw [round_up_core, h2, hk]
  · rw [round_to_tick_down_ok _ _ hq,
      round_down_core_eval _ _ 27418 (by norm_num [eps]) (by norm_num [eps])]
    exact congrArg Except.ok (by norm_num)
  · rw [round_to_tick_up_ok _ _ hq,
      round_up_core_eval _ _ 27419 (by norm_num [eps]) (by norm_num [eps])]
    exact congrArg Except.ok (by norm_num)
  · rw [round_to_tick_down_ok _ _ hq,
      round_down_core_eval _ _ 27419 (by norm_num [eps]) (by norm_num [eps])]
    exact congrArg Except.ok (by norm_num)

/-- Witness for C7 at x = 5, t = 1/4. -/
theorem claim_c7_round_to_tick_witness :
    (0 : ℚ) < 1 / 4 ∧
    round_to_tick (342731 / 50) (1 / 4) "down" = Except.ok (13709 / 2) ∧
    is_tick_multiple (round_down_core 5 (1 / 4)) (1 / 4) := by
  have h := claim_c7_round_to_tick 5 (1 / 4) (by norm_num)
  exact ⟨by norm_num, h.2.2.2.2.2.2.2.1, h.2.2.1⟩

/-- C7 counterexample: a price within eps below a tick boundary is
rounded UP by direction "down", so round-down is not always at or below
the price. -/
theorem claim_c7_counterexample :
    round_to_tick (1 / 4 - 1 / 10000000000000) (1 / 4) "down" = Except.ok (1 / 4) ∧
    ¬ ((1 / 4 : ℚ) ≤ 1 / 4 - 1 / 10000000000000) := by
  constructor
  · rw [round_to_tick_down_ok _ _ (by norm_num : (0:ℚ) < 1/4),
      round_down_core_eval _ _ 1 (by norm_num [eps]) (by norm_num [eps])]
    exact congrArg Except.ok (by norm_num)
  · norm_num

/-- Concrete evaluation: 6865 is on the 0.25 tick, unchanged going down. -/
theorem round_down_6865 : round_down_core 6865 (1 / 4) = 6865 := by
  rw [round_down_core_eval _ _ 27460 (by norm_num [eps]) (by norm_num [eps])]
  norm_num

/-- Concrete evaluation: 6865 is on the 0.25 tick, unchanged going up. -/
theorem round_up_6865 : round_up_core 6865 (1 / 4) = 6865 := by
  rw [round_up_core_eval _ _ 27460 (by norm_num [eps]) (by norm_num [eps])]
  norm_num

/-- Concrete evaluation: 6850 is on the 0.25 tick, unchanged going down. -/
theorem round_down_6850 : round_down_core 6850 (1 / 4) = 6850 := by
  rw [round_down_core_eval _ _ 27400 (by norm_num [eps]) (by norm_num [eps])]
  norm_num

/-- Concrete evaluation: 6860 is on the 0.25 tick, unchanged going up. -/
theorem round_up_6860 : round_up_core 6860 (1 / 4) = 6860 := by
  rw [round_up_core_eval _ _ 27440 (by norm_num [eps]) (by norm_num [eps])]
  norm_num

/-- C1 (confirmed).  For every opening range and target size, the /ES
plan has entries at the range boundaries, targets entry plus/minus
target_points, and stops at the tick-rounded midpoint when range size
exceeds target_points, else at the tick-rounded opposite boundary (long
down, short up); the spec's size-30 and size-10 examples evaluate as
stated. -/
theorem claim_c1_build_orb_plan (r : OpeningRange) (tp : ℚ) :
    (build_orb_plan "/ES" r tp).long_entry = r.high ∧
    (build_orb_plan "/ES" r tp).short_entry = r.low ∧
    (build_orb_plan "/ES" r tp).long_target = r.high + tp ∧
    (build_orb_plan "/ES" r tp).short_target = r.low - tp ∧
    (build_orb_plan "/ES" r tp).long_stop =
      (if r.size > tp then round_down_core r.mid (1 / 4)
       else round_down_core r.low (1 / 4)) ∧
    (build_orb_plan "/ES" r tp).short_stop =
      (if r.size > tp then round_up_core r.mid (1 / 4)
       else round_up_core r.high (1 / 4)) ∧
    (build_orb_plan "/ES" { start := 0, end_ := 15, high := 6880, low := 6850 } 20).long_stop = 6865 ∧
    (build_orb_plan "/ES" { start := 0, end_ := 15, high := 6880, low := 6850 } 20).short_stop = 6865 ∧
    (build_orb_plan "/ES" { start := 0, end_ := 15, high := 6860, low := 6850 } 20).long_stop = 6850 ∧
    (build_orb_plan "/ES" { start := 0, end_ := 15, high := 6860, low := 6850 } 20).short_stop = 6860 := by
  refine ⟨rfl, rfl, rfl, rfl, ?_, ?_, ?_, ?_, ?_, ?_⟩
  · by_cases hc : r.size > tp <;> simp [build_orb_plan, es_tick_size, hc]
  · by_cases hc : r.size > tp <;> simp [build_orb_plan, es_tick_size, hc]
  · norm_num [build_orb_plan, es_tick_size, OpeningRange.size, OpeningRange.mid,
      round_down_6865]
  · norm_num [build_orb_plan, es_tick_size, OpeningRange.size, OpeningRange.mid,
      round_up_6865]
  · norm_num [build_orb_plan, es_tick_size, OpeningRange.size, OpeningRange.mid,
      round_down_6850]
  · norm_num [build_orb_plan, es_tick_size, OpeningRange.size, OpeningRange.mid,
      round_up_6860]

/-- C2 (code_bug).  In the BUILDING_RANGE state, quote and history
failures are caught and update returns normally with the tracked range
unchanged; but on first reaching the range end (the transition into
RANGE_COMPLETE) the history fetch of _finalize_from_history is not
wrapped in try/except, so its failure propagates out of update instead
of being caught. -/
theorem claim_c2_finalize_exception_propagates :
    ORBTracker.update c2_tracker 50 0 45 (Except.ok { price := 6855, ts := some 50 })
        (Except.error "history fetch failed") = Except.error "history fetch failed" ∧
    ORBTracker.update c2_tracker 40 0 45 (Except.error "quote fetch failed")
        (Except.error "history fetch failed") = Except.ok c2_tracker ∧
    ORBTracker.update c2_tracker (-5) 0 45 (Except.error "quote fetch failed")
        (Except.error "history fetch failed") =
      Except.ok { c2_tracker with state := ORBState.waiting } := by
  refine ⟨?_, ?_, ?_⟩
  · simp [ORBTracker.update, ORBTracker.finalize_from_history, c2_tracker]
  · simp [ORBTracker.update, ORBTracker.update_from_quote, c2_tracker]
  · simp [ORBTracker.update, c2_tracker]

/-- C8 (confirmed).  compute_opening_range errors with "No candles
provided" on an empty series, errors with the distinct "No candles in
opening range window" when candles exist but none fall in [start, end),
and otherwise returns the window's [start, end) slice maximum high and
minimum low (attained bounds over exactly the in-window candles). -/
theorem claim_c8_compute_opening_range (candles : List Candle) (start end_ : ℤ) :
    (candles = [] →
      compute_opening_range candles start end_ = Except.error "No candles provided") ∧
    (candles ≠ [] → candles.filter (in_window start end_) = [] →
      compute_opening_range candles start end_ =
        Except.error "No candles in opening range window") ∧
    (∀ r, compute_opening_range candles start end_ = Except.ok r →
      r.start = start ∧ r.end_ = end_ ∧
      (∀ c ∈ candles, start ≤ c.ts → c.ts < end_ → c.high ≤ r.high ∧ r.low ≤ c.low) ∧
      (∃ c ∈ candles, (start ≤ c.ts ∧ c.ts < end_) ∧ c.high = r.high) ∧
      (∃ c ∈ candles, (start ≤ c.ts ∧ c.ts < end_) ∧ c.low = r.low)) ∧
    ("No candles provided" : String) ≠ "No candles in opening range window" := by
  refine ⟨?_, ?_, ?_, by simp⟩
  · intro h
    subst h
    rfl
  · intro hne hf
    rw [compute_opening_range, if_neg (by simpa using hne), hf]
  · intro r hr
    rw [compute_opening_range] at hr
    by_cases he : candles.isEmpty
    · rw [if_pos he] at hr
      cases hr
    · rw [if_neg he] at hr
      rcases hf : candles.filter (in_window start end_) with _ | ⟨c, cs⟩
      · rw [hf] at hr
        cases hr
      · rw [hf] at hr
        have hr2 := (Except.ok.injEq _ _).mp hr
        have hmemf : ∀ x ∈ candles, start ≤ x.ts → x.ts < end_ →
            x ∈ c :: cs := by
          intro x hx h1 h2
          rw [← hf]
          exact List.mem_filter.mpr ⟨hx, by simp [in_window, h1, h2]⟩
        have hffact : ∀ x ∈ c :: cs, x ∈ candles ∧ (start ≤ x.ts ∧ x.ts < end_) := by
          intro x hx
          rw [← hf] at hx
          have h1 := List.mem_filter.mp hx
          refine ⟨h1.1, ?_⟩
          have := h1.2
          simpa [in_window] using this
        subst hr2
        refine ⟨rfl, rfl, ?_, ?_, ?_⟩
        · intro x hx h1 h2
          rcases List.mem_cons.mp (hmemf x hx h1 h2) with hxc | hxc
          · subst hxc
            exact ⟨foldl_max_init_le _ _, le_foldl_min_init _ _⟩
          · constructor
            · exact foldl_max_le_of_mem _ (List.mem_map.mpr ⟨x, hxc, rfl⟩)
            · exact le_foldl_min_of_mem _ (List.mem_map.mpr ⟨x, hxc, rfl⟩)
        · rcases foldl_max_mem c.high (cs.map Candle.high) with hm | hm
          · have hc := hffact c (List.mem_cons_self c cs)
            exact ⟨c, hc.1, hc.2, hm.symm⟩
          · rcases List.mem_map.mp hm with ⟨x, hx, hxh⟩
            have hc := hffact x (List.mem_cons_of_mem c hx)
            exact ⟨x, hc.1, hc.2, hxh⟩
        · rcases foldl_min_mem c.low (cs.map Candle.low) with hm | hm
          · have hc := hffact c (List.mem_cons_self c cs)
            exact ⟨c, hc.1, hc.2, hm.symm⟩
          · rcases List.mem_map.mp hm with ⟨x, hx, hxl⟩
            have hc := hffact x (List.mem_cons_of_mem c hx)
            exact ⟨x, hc.1, hc.2, hxl⟩

/-- Witness for C8 on a concrete two-candle series over [0, 15). -/
theorem claim_c8_compute_opening_range_witness :
    compute_opening_range c8_candles 0 15 = Except.ok c8_range ∧
    c8_range.start = 0 ∧ c8_range.end_ = 15 := by
  have hok : compute_opening_range c8_candles 0 15 = Except.ok c8_range := by
    simp [compute_opening_range, c8_candles, c8_range, in_window, List.filter]
  have h := (claim_c8_compute_opening_range c8_candles 0 15).2.2.1 c8_range hok
  exact ⟨hok, h.1, h.2.1⟩

/-- C4 (confirmed).  should_skip_today evaluates the four conditions in
the fixed order FOMC_DAY, GAP_FILL_DAY, RANGE_OVERLAP_DAY,
WIDE_RANGE_DAY, returning the reason of the first firing condition and
(false, "") when none fire; in particular a date that is both in the
FOMC blackout list and a qualifying gap day yields FOMC_DAY. -/
theorem claim_c4_skip_precedence (day : String) (open_price prev_close : Option ℚ)
    (s : Settings) (orb_high orb_low prev_close_high prev_close_low : Option ℚ) :
    (fomc_condition day s = true →
      should_skip_today day open_price prev_close s orb_high orb_low
        prev_close_high prev_close_low = (true, "FOMC_DAY")) ∧
    (fomc_condition day s = false →
      gap_condition open_price prev_close s = true →
      should_skip_today day open_price prev_close s orb_high orb_low
        prev_close_high prev_close_low = (true, "GAP_FILL_DAY")) ∧
    (fomc_condition day s = false →
      gap_condition open_price prev_close s = false →
      overlap_condition orb_high orb_low prev_close_high prev_close_low = true →
      should_skip_today day open_price prev_close s orb_high orb_low
        prev_close_high prev_close_low = (true, "RANGE_OVERLAP_DAY")) ∧
    (fomc_condition day s = false →
      gap_condition open_price prev_close s = false →
      overlap_condition orb_high orb_low prev_close_high prev_close_low = false →
      wide_condition orb_high orb_low s = true →
      should_skip_today day open_price prev_close s orb_high orb_low
        prev_close_high prev_close_low = (true, "WIDE_RANGE_DAY")) ∧
    (fomc_condition day s = false →
      gap_condition open_price prev_close s = false →
      overlap_condition orb_high orb_low prev_close_high prev_close_low = false →
      wide_condition orb_high orb_low s = false →
      should_skip_today day open_price prev_close s orb_high orb_low
        prev_close_high prev_close_low = (false, "")) := by
  refine ⟨?_, ?_, ?_, ?_, ?_⟩ <;>
    intros <;>
    simp_all [should_skip_today, fomc_condition, gap_condition, overlap_condition,
      wide_condition]

/-- Witness for C4: 2026-01-28 is in the blackout list and the 10 percent
overnight gap qualifies against the 1 percent threshold, yet the reason
is FOMC_DAY. -/
theorem claim_c4_skip_precedence_witness :
    fomc_condition "2026-01-28" c4_settings = true ∧
    gap_condition (some 110) (some 100) c4_settings = true ∧
    should_skip_today "2026-01-28" (some 110) (some 100) c4_settings
      none none none none = (true, "FOMC_DAY") := by
  have h1 : fomc_condition "2026-01-28" c4_settings = true := by
    simp [fomc_condition, c4_settings, py_or_dates, is_fomc_day, default_skip_cfg]
  have h2 : gap_condition (some 110) (some 100) c4_settings = true := by
    norm_num [gap_condition, c4_settings, threshold_lookup, is_gap_fill_day,
      default_skip_cfg]
  exact ⟨h1, h2,
    (claim_c4_skip_precedence "2026-01-28" (some 110) (some 100) c4_settings
      none none none none).1 h1⟩

/-- C10 (confirmed).  When neither settings.skip_days.gap_threshold_pct
nor the top-level settings.gap_threshold_pct is present, the gap check is
skipped entirely and should_skip_today can never return GAP_FILL_DAY,
however large the overnight gap. -/
theorem claim_c10_no_gap_without_threshold (day : String)
    (open_price prev_close : Option ℚ) (s : Settings)
    (orb_high orb_low prev_close_high prev_close_low : Option ℚ)
    (h1 : (s.skip_days.getD default_skip_cfg).gap_threshold_pct = none)
    (h2 : s.gap_threshold_pct = none) :
    (should_skip_today day open_price prev_close s orb_high orb_low
      prev_close_high prev_close_low).2 ≠ "GAP_FILL_DAY" := by
  have ht : threshold_lookup s = none := by
    rw [threshold_lookup, h1, h2]
  rcases orb_high with _ | oh <;> rcases orb_low with _ | ol <;>
    rcases prev_close_high with _ | pch <;> rcases prev_close_low with _ | pcl <;>
    (simp only [should_skip_today, ht]; repeat' split; all_goals simp_all)

/-- Witness for C10: a 900 percent gap with no configured threshold does
not produce GAP_FILL_DAY. -/
theorem claim_c10_no_gap_without_threshold_witness :
    (c10_settings.skip_days.getD default_skip_cfg).gap_threshold_pct = none ∧
    c10_settings.gap_threshold_pct = none ∧
    (should_skip_today "2026-03-03" (some 1000) (some 100) c10_settings
      none none none none).2 ≠ "GAP_FILL_DAY" :=
  ⟨rfl, rfl,
    claim_c10_no_gap_without_threshold "2026-03-03" (some 1000) (some 100)
      c10_settings none none none none rfl rfl⟩

/-- Closing a position does not touch the one-trade flag. -/
theorem close_flag (b : Broker) (p : Position) (price : ℚ) (reason : String) :
    (b.close_ p price reason).1.trade_taken_today = b.trade_taken_today := rfl

/-- Closing a position does not touch the pending OCO entry. -/
theorem close_oco (b : Broker) (p : Position) (price : ℚ) (reason : String) :
    (b.close_ p price reason).1.oco = b.oco := rfl

/-- The P&L logging throttle does not touch the one-trade flag. -/
theorem log_flag (b : Broker) (price : ℚ) :
    (b.log_unrealized_pnl price).trade_taken_today = b.trade_taken_today := by
  rcases hp : b.position with _ | p <;>
    rcases hl : b.last_unrealized_pnl with _ | v <;>
    simp only [Broker.log_unrealized_pnl, hp, hl] <;>
    first
      | rfl
      | (split_ifs <;> rfl)

/-- The P&L logging throttle does not touch the pending OCO entry. -/
theorem log_oco (b : Broker) (price : ℚ) :
    (b.log_unrealized_pnl price).oco = b.oco := by
  rcases hp : b.position with _ | p <;>
    rcases hl : b.last_unrealized_pnl with _ | v <;>
    simp only [Broker.log_unrealized_pnl, hp, hl] <;>
    first
      | rfl
      | (split_ifs <;> rfl)

/-- The exit phase of on_price does not touch the one-trade flag. -/
theorem exit_step_flag (b : Broker) (price : ℚ) :
    (b.exit_step price).1.trade_taken_today = b.trade_taken_today := by
  rcases hp : b.position with _ | p <;> rcases hb : b.bracket with _ | br <;>
    simp only [Broker.exit_step, hp, hb]
  split_ifs <;> simp [log_flag, Broker.close_]

/-- The exit phase of on_price does not touch the pending OCO entry. -/
theorem exit_step_oco (b : Broker) (price : ℚ) :
    (b.exit_step price).1.oco = b.oco := by
  rcases hp : b.position with _ | p <;> rcases hb : b.bracket with _ | br <;>
    simp only [Broker.exit_step, hp, hb]
  split_ifs <;> simp [log_oco, Broker.close_]

/-- A fill in the entry phase sets the one-trade flag. -/
theorem entry_step_flag_of_fill (b : Broker) (price : ℚ) (now : ℤ)
    (h : (b.entry_step price now).2 ≠ none) :
    (b.entry_step price now).1.trade_taken_today = true := by
  rcases hp : b.position with _ | p <;> rcases ho : b.oco with _ | o <;>
    rcases hl : b.last_price with _ | lp <;>
    simp only [Broker.entry_step, hp, ho, hl] at h ⊢ <;>
    try simp at h
  all_goals split_ifs at h ⊢ <;> simp_all [Broker.open_, ho]

/-- The entry phase preserves an already-set one-trade flag. -/
theorem entry_step_flag_mono (b : Broker) (price : ℚ) (now : ℤ)
    (h : b.trade_taken_today = true) :
    (b.entry_step price now).1.trade_taken_today = true := by
  rcases hp : b.position with _ | p <;> rcases ho : b.oco with _ | o <;>
    rcases hl : b.last_price with _ | lp <;>
    simp only [Broker.entry_step, hp, ho, hl] <;>
    try exact h
  all_goals split_ifs <;> simp_all [Broker.open_, ho]

/-- After an on_price fill, the one-trade flag of the resulting broker is
set. -/
theorem on_price_flag_of_fill (b : Broker) (price : ℚ) (now : ℤ)
    (h : (b.on_price price now).fill ≠ none) :
    (b.on_price price now).broker.trade_taken_today = true := by
  have h2 : (b.entry_step price now).2 ≠ none := h
  show ((b.entry_step price now).1.exit_step price).1.trade_taken_today = true
  rw [exit_step_flag]
  exact entry_step_flag_of_fill b price now h2

/-- The resulting pending OCO entry of a tick is that of the entry phase. -/
theorem on_price_oco (b : Broker) (price : ℚ) (now : ℤ) :
    (b.on_price price now).broker.oco = (b.entry_step price now).1.oco := by
  show ((b.entry_step price now).1.exit_step price).1.oco = _
  exact exit_step_oco _ _

/-- The breakeven move does not touch the one-trade flag. -/
theorem breakeven_flag (b : Broker) (lp : ℚ) :
    (b.move_stop_to_breakeven_if_in_profit lp).trade_taken_today =
      b.trade_taken_today := by
  rcases hp : b.position with _ | p <;> rcases hb : b.bracket with _ | br <;>
    simp only [Broker.move_stop_to_breakeven_if_in_profit, hp, hb] <;>
    try rfl
  split_ifs <;> rfl

/-- The market exit does not touch the one-trade flag. -/
theorem exit_market_flag (b : Broker) (lp : ℚ) (reason : String) :
    (b.exit_market lp reason).1.trade_taken_today = b.trade_taken_today := by
  rcases hp : b.position with _ | p <;> simp only [Broker.exit_market, hp] <;> rfl

/-- No live session action ever clears the one-trade flag. -/
theorem runAction_flag (b : Broker) (a : BrokerAction)
    (h : b.trade_taken_today = true) :
    (runAction b a).trade_taken_today = true := by
  cases a with
  | tick price now =>
      show (b.on_price price now).broker.trade_taken_today = true
      show ((b.entry_step price now).1.exit_step price).1.trade_taken_today = true
      rw [exit_step_flag]
      exact entry_step_flag_mono b price now h
  | place rh rl buf tp q now =>
      show (b.place_orb_oco rh rl buf tp q now).trade_taken_today = true
      rw [Broker.place_orb_oco, if_pos h]
      exact h
  | breakeven lp =>
      show (b.move_stop_to_breakeven_if_in_profit lp).trade_taken_today = true
      rw [breakeven_flag]
      exact h
  | exitMarket lp reason =>
      show (b.exit_market lp reason).1.trade_taken_today = true
      rw [exit_market_flag]
      exact h
  | cancelEntry => exact h

/-- The one-trade flag survives any sequence of live session actions. -/
theorem foldl_runAction_flag (acts : List BrokerAction) (b : Broker)
    (h : b.trade_taken_today = true) :
    (acts.foldl runAction b).trade_taken_today = true := by
  induction acts generalizing b with
  | nil => exact h
  | cons a as ih =>
      simp only [List.foldl_cons]
      exact ih _ (runAction_flag b a h)

/-- C6 (confirmed).  Once any entry leg fills on a tick, the one-trade
flag is set, stays set across every further live session action
(including closing the position), and every subsequent place_orb_oco
before the daily reset is an exact no-op on the simulator state. -/
theorem claim_c6_one_trade_per_day (b : Broker) (price : ℚ) (now : ℤ)
    (acts : List BrokerAction)
    (hfill : (b.on_price price now).fill ≠ none) :
    (acts.foldl runAction (b.on_price price now).broker).trade_taken_today = true ∧
    (∀ rh rl buf tp q n2,
      (acts.foldl runAction (b.on_price price now).broker).place_orb_oco
          rh rl buf tp q n2 =
        acts.foldl runAction (b.on_price price now).broker) := by
  have h1 : (acts.foldl runAction (b.on_price price now).broker).trade_taken_today
      = true :=
    foldl_runAction_flag acts _ (on_price_flag_of_fill b price now hfill)
  refine ⟨h1, ?_⟩
  intro rh rl buf tp q n2
  rw [Broker.place_orb_oco, if_pos h1]

/-- Witness for C6: a first-tick fill on the pending OCO entry, followed
by a tick that closes at the target; the later place_orb_oco is a no-op. -/
theorem claim_c6_one_trade_per_day_witness :
    (c6_broker.on_price 6861 0).fill ≠ none ∧
    ([BrokerAction.tick 6900 1].foldl runAction
        (c6_broker.on_price 6861 0).broker).trade_taken_today = true ∧
    ([BrokerAction.tick 6900 1].foldl runAction
        (c6_broker.on_price 6861 0).broker).place_orb_oco 6860 6850 0 20 1 2 =
      [BrokerAction.tick 6900 1].foldl runAction (c6_broker.on_price 6861 0).broker := by
  have hfill : (c6_broker.on_price 6861 0).fill ≠ none := by
    show (c6_broker.entry_step 6861 0).2 ≠ none
    norm_num [Broker.entry_step, c6_broker, c5_oco]
    simp
  have h := claim_c6_one_trade_per_day c6_broker 6861 0 [BrokerAction.tick 6900 1] hfill
  exact ⟨hfill, h.1, h.2 6860 6850 0 20 1 2⟩

/-- C5 (confirmed).  With a pending OCO entry and a previous observed
price, a tick fills the long leg iff the price crossed up through
buy_stop and the short leg iff it crossed down through sell_stop; the two
crossing conditions are mutually exclusive, so at most one leg fills per
tick, and a fill cancels the opposite leg.  On the very first tick after
placement a plain level test is used with the long leg checked first. -/
theorem claim_c5_oco_crossing (b : Broker) (o : OCOEntry) (price : ℚ) (now : ℤ)
    (hpos : b.position = none) (hoco : b.oco = some o) :
    (∀ lp, b.last_price = some lp →
      (((b.on_price price now).fill = some (Side.LONG, o.buy_stop)) ↔
        (lp < o.buy_stop ∧ o.buy_stop ≤ price)) ∧
      (((b.on_price price now).fill = some (Side.SHORT, o.sell_stop)) ↔
        (lp > o.sell_stop ∧ o.sell_stop ≥ price)) ∧
      ¬ ((lp < o.buy_stop ∧ o.buy_stop ≤ price) ∧
         (lp > o.sell_stop ∧ o.sell_stop ≥ price)) ∧
      ((b.on_price price now).fill ≠ none → (b.on_price price now).broker.oco = none)) ∧
    (b.last_price = none →
      (((b.on_price price now).fill = some (Side.LONG, o.buy_stop)) ↔
        o.buy_stop ≤ price) ∧
      (((b.on_price price now).fill = some (Side.SHORT, o.sell_stop)) ↔
        (price < o.buy_stop ∧ price ≤ o.sell_stop)) ∧
      ((b.on_price price now).fill ≠ none → (b.on_price price now).broker.oco = none)) := by
  have hfill : (b.on_price price now).fill = (b.entry_step price now).2 := rfl
  constructor
  · intro lp hlp
    rw [hfill, on_price_oco]
    simp only [Broker.entry_step, hpos, hoco, hlp]
    split_ifs with h1 h2
    · refine ⟨iff_of_true rfl h1, ?_, ?_, fun _ => rfl⟩
      · refine iff_of_false (by simp) ?_
        intro hx
        have := h1.1
        have := h1.2
        have := hx.1
        have := hx.2
        linarith
      · intro hx
        have := hx.1.1
        have := hx.1.2
        have := hx.2.1
        have := hx.2.2
        linarith
    · refine ⟨iff_of_false (by simp) h1, iff_of_true rfl h2, ?_, fun _ => rfl⟩
      intro hx
      exact h1 hx.1
    · refine ⟨iff_of_false (by simp) h1, iff_of_false (by simp) h2, ?_, ?_⟩
      · intro hx
        exact h1 hx.1
      · intro hne
        exact absurd rfl hne
  · intro hlp
    rw [hfill, on_price_oco]
    simp only [Broker.entry_step, hpos, hoco, hlp]
    split_ifs with h1 h2
    · refine ⟨iff_of_true rfl h1, ?_, fun _ => rfl⟩
      refine iff_of_false (by simp) ?_
      intro hx
      exact absurd h1 (not_le.mpr hx.1)
    · refine ⟨iff_of_false (by simp) h1, iff_of_true rfl ⟨not_le.mp h1, h2⟩,
        fun _ => rfl⟩
    · refine ⟨iff_of_false (by simp) h1, ?_, ?_⟩
      · refine iff_of_false (by simp) ?_
        intro hx
        exact h2 hx.2
      · intro hne
        exact absurd rfl hne

/-- Witness for C5: previous price 6859 crossing up through the 6860 buy
stop fills the long leg and cancels the short leg. -/
theorem claim_c5_oco_crossing_witness :
    (c5_broker.on_price 6861 0).fill = some (Side.LONG, 6860) ∧
    (c5_broker.on_price 6861 0).broker.oco = none := by
  have h := (claim_c5_oco_crossing c5_broker c5_oco 6861 0 rfl rfl).1 6859 rfl
  have hbuy : c5_oco.buy_stop = 6860 := rfl
  have hfill : (c5_broker.on_price 6861 0).fill = some (Side.LONG, 6860) := by
    rw [← hbuy]
    exact h.1.mpr (by norm_num [c5_oco])
  exact ⟨hfill, h.2.2.2 (by rw [hfill]; simp)⟩

/-- The close record produced by a stop-out: reason "stop", normalised to
"breakeven_stop" when the breakeven stop is active at the entry price. -/
theorem close_event (b : Broker) (p : Position) (price : ℚ) (br : TradeBracket)
    (hbr : b.bracket = some br) :
    (b.close_ p price "stop").2 =
      some (price,
        if b.breakeven_stop_active && decide (|br.stop - p.entry| < 1 / 1000000000)
        then "breakeven_stop" else "stop") := by
  simp only [Broker.close_, hbr]
  norm_num

/-- C3 (corrected).  When one price observation satisfies both the stop
and the target of an open position, the live simulator resolves the exit
through the stop branch: the recorded exit reason is "stop", or
"breakeven_stop" when the stop had been moved to breakeven onto the entry
price (see the counterexample) — never "target".  In the backtest day
walk, a candle touching both levels records
STOP_AND_TARGET_SAME_CANDLE with exit price equal to the stop. -/
theorem claim_c3_conservative_stop_priority (b : Broker) (p : Position)
    (br : TradeBracket) (price : ℚ) (now : ℤ)
    (hpos : b.position = some p) (hbr : b.bracket = some br)
    (hboth : (p.side = Side.LONG ∧ price ≤ br.stop ∧ br.target ≤ price) ∨
             (p.side = Side.SHORT ∧ br.stop ≤ price ∧ price ≤ br.target)) :
    (∃ reason : String,
      (b.on_price price now).close = some (price, reason) ∧
      (reason = "stop" ∨ reason = "breakeven_stop") ∧
      reason ≠ "target" ∧
      (¬ (b.breakeven_stop_active = true ∧ |br.stop - p.entry| < 1 / 1000000000) →
        reason = "stop")) ∧
    (∀ stop_px target_px h l : ℚ,
      (l ≤ stop_px → target_px ≤ h →
        backtest_manage_exit Side.LONG stop_px target_px h l =
          some (stop_px, "STOP_AND_TARGET_SAME_CANDLE")) ∧
      (stop_px ≤ h → l ≤ target_px →
        backtest_manage_exit Side.SHORT stop_px target_px h l =
          some (stop_px, "STOP_AND_TARGET_SAME_CANDLE"))) := by
  constructor
  · have hclose : (b.on_price price now).close = (b.exit_step price).2 := by
      show ((b.entry_step price now).1.exit_step price).2 = _
      have hentry : b.entry_step price now = (b, none) := by
        simp only [Broker.entry_step, hpos]
      rw [hentry]
    have hstop : (b.exit_step price).2 = (b.close_ p price "stop").2 := by
      rcases hboth with ⟨hside, hs, ht⟩ | ⟨hside, hs, ht⟩ <;>
        simp [Broker.exit_step, hpos, hbr, hside, hs]
    rw [hclose, hstop, close_event b p price br hbr]
    cases hbe : b.breakeven_stop_active &&
        decide (|br.stop - p.entry| < 1 / 1000000000) with
    | false =>
        refine ⟨"stop", by simp, Or.inl rfl, by simp, fun _ => rfl⟩
    | true =>
        refine ⟨"breakeven_stop", by simp, Or.inr rfl, by simp, ?_⟩
        intro hn
        simp only [Bool.and_eq_true, decide_eq_true_eq] at hbe
        exact absurd hbe hn
  · intro stop_px target_px h l
    constructor
    · intro h1 h2
      simp [backtest_manage_exit, h1, h2]
    · intro h1 h2
      simp [backtest_manage_exit, h1, h2]

/-- Witness for C3: a long position with stop 6850 above target 6840 and
one tick at 6845 satisfying both levels exits with reason "stop"; the
backtest candle touching both levels records the same-candle stop-out at
the stop price. -/
theorem claim_c3_conservative_stop_priority_witness :
    (c3_wit_broker.on_price 6845 0).close = some (6845, "stop") ∧
    backtest_manage_exit Side.LONG 6850 6840 6850 6845 =
      some (6850, "STOP_AND_TARGET_SAME_CANDLE") := by
  have h := claim_c3_conservative_stop_priority c3_wit_broker
      { side := Side.LONG, qty := 1, entry := 6860, entry_time := 0 }
      { stop := 6850, target := 6840 } 6845 0 rfl rfl
      (Or.inl ⟨rfl, by norm_num, by norm_num⟩)
  obtain ⟨⟨reason, hcl, hor, hne, hst⟩, hbt⟩ := h
  have hr : reason = "stop" := by
    refine hst ?_
    intro hx
    have : c3_wit_broker.breakeven_stop_active = false := rfl
    rw [this] at hx
    exact absurd hx.1 (by simp)
  rw [hr] at hcl
  exact ⟨hcl, (hbt 6850 6840 6850 6845).1 (by norm_num) (by norm_num)⟩

/-- C3 counterexample: with the breakeven stop active at the entry price
and a degenerate bracket whose stop and target are both satisfied by the
tick, the recorded exit reason is "breakeven_stop", not the "stop" the
claim states. -/
theorem claim_c3_counterexample :
    ((100 : ℚ) ≤ 100 ∧ (100 : ℚ) ≤ 100) ∧
    (c3_cex_broker.on_price 100 0).close = some (100, "breakeven_stop") ∧
    (c3_cex_broker.on_price 100 0).close ≠ some (100, "stop") := by
  have hclose : (c3_cex_broker.on_price 100 0).close =
      (c3_cex_broker.exit_step 100).2 := by
    show ((c3_cex_broker.entry_step 100 0).1.exit_step 100).2 = _
    have hentry : c3_cex_broker.entry_step 100 0 = (c3_cex_broker, none) := by
      simp only [Broker.entry_step, c3_cex_broker]
    rw [hentry]
  have hstop : (c3_cex_broker.exit_step 100).2 =
      (c3_cex_broker.close_
        { side := Side.LONG, qty := 1, entry := 100, entry_time := 0 } 100 "stop").2 := by
    simp [Broker.exit_step, c3_cex_broker]
  have hev := close_event c3_cex_broker
      { side := Side.LONG, qty := 1, entry := 100, entry_time := 0 } 100
      { stop := 100, target := 100 } rfl
  rw [hclose, hstop, hev]
  have hflag : c3_cex_broker.breakeven_stop_active = true := rfl
  rw [hflag]
  norm_num
  decide

/-- C9 (corrected).  For the /ES and /MES symbols the plan's stops are
the directionally rounded values (long down, short up) and exact
multiples of the 0.25 tick while entries and targets are left unrounded;
for any other symbol build_orb_plan leaves the stops unrounded (see the
counterexample).  The same directional 0.25 rounding is applied in the
order-fill-time stop derivation and in the breakeven stop adjustment. -/
theorem claim_c9_stop_rounding :
    (∀ (symbol : String) (r : OpeningRange) (tp : ℚ),
      symbol = "/ES" ∨ symbol = "/MES" →
      (build_orb_plan symbol r tp).long_stop =
        round_down_core (if r.size > tp then r.mid else r.low) (1 / 4) ∧
      (build_orb_plan symbol r tp).short_stop =
        round_up_core (if r.size > tp then r.mid else r.high) (1 / 4) ∧
      is_tick_multiple (build_orb_plan symbol r tp).long_stop (1 / 4) ∧
      is_tick_multiple (build_orb_plan symbol r tp).short_stop (1 / 4) ∧
      (build_orb_plan symbol r tp).long_entry = r.high ∧
      (build_orb_plan symbol r tp).short_entry = r.low ∧
      (build_orb_plan symbol r tp).long_target = r.high + tp ∧
      (build_orb_plan symbol r tp).short_target = r.low - tp) ∧
    (∀ (side : Side) (entry : ℚ) (oco : OCOEntry),
      (compute_stop_target side entry oco).1 =
        (if side = Side.LONG then
          round_down_core
            (if oco.range_size > oco.target_points then oco.range_mid
             else oco.range_low) (1 / 4)
         else
          round_up_core
            (if oco.range_size > oco.target_points then oco.range_mid
             else oco.range_high) (1 / 4)) ∧
      is_tick_multiple (compute_stop_target side entry oco).1 (1 / 4)) ∧
    (∀ (b : Broker) (p : Position) (br : TradeBracket) (lp : ℚ),
      b.position = some p → b.bracket = some br →
      b.breakeven_stop_active = false →
      (p.side = Side.LONG → lp > p.entry → br.stop < p.entry →
        (b.move_stop_to_breakeven_if_in_profit lp).bracket =
          some { br with stop := round_down_core p.entry (1 / 4) } ∧
        is_tick_multiple (round_down_core p.entry (1 / 4)) (1 / 4)) ∧
      (p.side = Side.SHORT → lp < p.entry → br.stop > p.entry →
        (b.move_stop_to_breakeven_if_in_profit lp).bracket =
          some { br with stop := round_up_core p.entry (1 / 4) } ∧
        is_tick_multiple (round_up_core p.entry (1 / 4)) (1 / 4))) := by
  refine ⟨?_, ?_, ?_⟩
  · intro symbol r tp hsym
    have htick : es_tick_size symbol = 1 / 4 := by
      rcases hsym with h | h <;> simp [es_tick_size, h]
    have hstopd : (build_orb_plan symbol r tp).long_stop =
        round_down_core (if r.size > tp then r.mid else r.low) (1 / 4) := by
      simp only [build_orb_plan, htick, if_pos hsym]
    have hstopu : (build_orb_plan symbol r tp).short_stop =
        round_up_core (if r.size > tp then r.mid else r.high) (1 / 4) := by
      simp only [build_orb_plan, htick, if_pos hsym]
    refine ⟨hstopd, hstopu, ?_, ?_, rfl, rfl, rfl, rfl⟩
    · rw [hstopd]
      exact round_down_core_multiple _ _
    · rw [hstopu]
      exact round_up_core_multiple _ _
  · intro side entry oco
    cases side with
    | LONG =>
        constructor
        · simp [compute_stop_target]
        · have : (compute_stop_target Side.LONG entry oco).1 =
              round_down_core
                (if oco.range_size > oco.target_points then oco.range_mid
                 else oco.range_low) (1 / 4) := by
            simp [compute_stop_target]
          rw [this]
          exact round_down_core_multiple _ _
    | SHORT =>
        constructor
        · simp [compute_stop_target]
        · have : (compute_stop_target Side.SHORT entry oco).1 =
              round_up_core
                (if oco.range_size > oco.target_points then oco.range_mid
                 else oco.range_high) (1 / 4) := by
            simp [compute_stop_target]
          rw [this]
          exact round_up_core_multiple _ _
  · intro b p br lp hpos hbr hflag
    constructor
    · intro hside hlp hstp
      constructor
      · simp [Broker.move_stop_to_breakeven_if_in_profit, hpos, hbr, hflag,
          hside, hlp, hstp]
      · exact round_down_core_multiple _ _
    · intro hside hlp hstp
      constructor
      · simp [Broker.move_stop_to_breakeven_if_in_profit, hpos, hbr, hflag,
          hside, hlp, hstp]
      · exact round_up_core_multiple _ _

/-- Witness for C9 at the /ES size-30 example range and the concrete long
position of c9_broker moved to breakeven. -/
theorem claim_c9_stop_rounding_witness :
    is_tick_multiple
      ((build_orb_plan "/ES" { start := 0, end_ := 15, high := 6880, low := 6850 } 20).long_stop)
      (1 / 4) ∧
    is_tick_multiple
      ((compute_stop_target Side.LONG 6860 c5_oco).1) (1 / 4) ∧
    (c9_broker.move_stop_to_breakeven_if_in_profit 6861).bracket =
      some { stop := round_down_core 6860 (1 / 4), target := 6880 } := by
  have h1 := (claim_c9_stop_rounding.1 "/ES"
      { start := 0, end_ := 15, high := 6880, low := 6850 } 20 (Or.inl rfl)).2.2.1
  have h2 := (claim_c9_stop_rounding.2.1 Side.LONG 6860 c5_oco).2
  have h3 := ((claim_c9_stop_rounding.2.2 c9_broker
      { side := Side.LONG, qty := 1, entry := 6860, entry_time := 0 }
      { stop := 6850, target := 6880 } 6861 rfl rfl rfl).1 rfl
      (by norm_num) (by norm_num)).1
  exact ⟨h1, h2, h3⟩

/-- C9 counterexample: for a non-ES symbol build_orb_plan leaves the
stop unrounded, so it need not be a multiple of the instrument's 0.01
tick size — here long_stop = 1/3. -/
theorem claim_c9_counterexample :
    ¬ is_tick_multiple
        ((build_orb_plan "QQQ" { start := 0, end_ := 15, high := 1/2, low := 1/3 } 20).long_stop)
        (es_tick_size "QQQ") := by
  intro hm
  obtain ⟨n, hn⟩ := hm
  have hs : ¬("QQQ" = "/ES" ∨ ("QQQ" = "/MES")) := by decide
  have h1 : (build_orb_plan "QQQ"
      { start := 0, end_ := 15, high := 1/2, low := 1/3 } 20).long_stop = 1/3 := by
    simp only [build_orb_plan, if_neg hs]
    norm_num [OpeningRange.size]
  have h2 : es_tick_size "QQQ" = 1/100 := by
    simp only [es_tick_size, if_neg hs]
  rw [h1, h2] at hn
  have h3 : (3 * n : ℚ) = 100 := by
    field_simp at hn
    linarith
  have h4 : (3 * n : ℤ) = 100 := by exact_mod_cast h3
  omega
